import Mathlib

/-!
Verification of the ADLES specification validator and provisioning layer.

The Python sources (adles/parser.py, adles/vsphere/folder_utils.py,
automation/interface.py, automation/vsphere_interface.py) are shallowly
embedded below.  Parsed YAML/JSON documents are modelled by the inductive
type `Value` (Python dict / list / str / int / bool / None); Python code
that can raise an exception is modelled in `Except Err`; the file system,
the JSON reader, the YAML parser and the netaddr IP classifier are
modelled as an explicit environment `Env` of oracles, since their
behaviour is external input to the functions under verification.
-/

/-- A parsed YAML/JSON document value, mirroring the Python values that
`yaml.load` produces: dicts (with string keys, in insertion order),
lists, strings, ints, bools, and None. -/
inductive Value where
  | null : Value
  | str : String → Value
  | int : Int → Value
  | bool : Bool → Value
  | list : List Value → Value
  | map : List (String × Value) → Value
deriving Repr

/-- Python exceptions that the embedded code can raise. -/
inductive Err where
  | typeError
  | attributeError
  | keyError
  | valueError
deriving Repr, DecidableEq

/-- Python substring test `needle in hay` for strings. -/
def strContains (hay needle : String) : Bool :=
  (List.range (hay.length + 1)).any fun i => needle.isPrefixOf (hay.drop i)

namespace Value

/-- Python `type(v) is str`. -/
def isStr : Value → Bool
  | .str _ => true
  | _ => false

/-- Python `type(v) is int` (note: `type(True) is int` is false in Python,
and `bool` is a separate constructor here, matching that). -/
def isInt : Value → Bool
  | .int _ => true
  | _ => false

/-- Python `type(v) is bool`. -/
def isBool : Value → Bool
  | .bool _ => true
  | _ => false

/-- Python `type(v) is list` / `isinstance(v, list)`. -/
def isList : Value → Bool
  | .list _ => true
  | _ => false

/-- Python `type(v) is dict`. -/
def isMap : Value → Bool
  | .map _ => true
  | _ => false

/-- Python membership test `s in v`: key lookup for dicts, element
equality for lists (a string compares equal only to the same string),
substring test for strings; raises TypeError on int/bool/None. -/
def containsE (v : Value) (s : String) : Except Err Bool :=
  match v with
  | .map m => .ok (m.lookup s).isSome
  | .list l => .ok (l.any fun x => match x with | .str t => t == s | _ => false)
  | .str t => .ok (strContains t s)
  | .int _ => .error .typeError
  | .bool _ => .error .typeError
  | .null => .error .typeError

/-- Python subscript `v[s]` with a string key: dict lookup (KeyError when
absent); raises TypeError on every other value shape. -/
def lookupE (v : Value) (s : String) : Except Err Value :=
  match v with
  | .map m =>
    match m.lookup s with
    | some x => .ok x
    | none => .error .keyError
  | _ => .error .typeError

/-- Python `v.items()`: the key/value pairs of a dict; raises
AttributeError on every other value shape. -/
def itemsE (v : Value) : Except Err (List (String × Value)) :=
  match v with
  | .map m => .ok m
  | _ => .error .attributeError

/-- Python `int(v)`: identity on ints, 0/1 on bools, decimal parse on
strings (ValueError when unparsable); raises TypeError on the rest. -/
def intE (v : Value) : Except Err Int :=
  match v with
  | .int n => .ok n
  | .bool b => .ok (if b then 1 else 0)
  | .str s =>
    match s.toInt? with
    | some n => .ok n
    | none => .error .valueError
  | _ => .error .typeError

/-- Python `len(v)`: length of a list, dict or string; raises TypeError
on int/bool/None. -/
def lenE (v : Value) : Except Err Nat :=
  match v with
  | .list l => .ok l.length
  | .map m => .ok m.length
  | .str s => .ok s.length
  | _ => .error .typeError

/-- Python `v is None`. -/
def isNull : Value → Bool
  | .null => true
  | _ => false

end Value

/-- Result of netaddr classifying a parsed `IPNetwork`: the four
predicates that `_verify_network` consults. -/
structure SubnetInfo where
  is_reserved : Bool
  is_multicast : Bool
  is_loopback : Bool
  is_private : Bool
deriving Repr, DecidableEq

/-- External collaborators of the validator, modelled as oracles:
`readJson` is `adles.utils.read_json` (not under src/; modelled from the
spec: it returns the parsed user-info/login JSON document, or None —
here `Value.null` — when the file is unreadable or invalid); `fileExists`
is `os.path.exists` applied to the infra-file value; `parseFile` is
`parse_file` applied to the infra-file value (returning `Value.null`
both for an empty document and for a YAML parse failure, the two cases
Python conflates with None); `pathExists`/`parsePath` are the same two
for the specification-file path given to `check_syntax`; `ipnet` is the
netaddr `IPNetwork` constructor plus classification (`none` models
`AddrFormatError`, the exception `_verify_network` catches). -/
structure Env where
  readJson : Value → Value
  fileExists : Value → Bool
  parseFile : Value → Value
  pathExists : String → Bool
  parsePath : String → Value
  ipnet : Value → Option SubnetInfo

/-- `_checker(value_list, source, data, flag)` from adles/parser.py:
counts how many names of the list are missing from `data` (the `source`
and `flag` arguments only select the log channel and are dropped here). -/
def _checker (value_list : List String) (data : Value) : Except Err Nat :=
  match value_list with
  | [] => .ok 0
  | v :: rest =>
    match data.containsE v with
    | .error e => .error e
    | .ok present =>
      match _checker rest data with
      | .error e => .error e
      | .ok n => .ok ((if present then 0 else 1) + n)

/-- `_check_group_file(filename)` from adles/parser.py: one error when
`read_json` returns None for the group's user-info file. -/
def _check_group_file (env : Env) (filename : Value) : Except Err (Nat × Nat) :=
  if (env.readJson filename).isNull then .ok (1, 0) else .ok (0, 0)

/-- The body of the `for key, value in groups.items()` loop of
`_verify_groups_syntax` (adles/parser.py lines 110-141): the errors and
warnings contributed by one group definition. -/
def groupEntry (env : Env) (value : Value) : Except Err (Nat × Nat) :=
  match value.containsE "instances" with
  | .error e => .error e
  | .ok true =>
    -- Template groups
    match value.lookupE "instances" with
    | .error e => .error e
    | .ok inst =>
      let e0 : Nat := if inst.isInt then 0 else 1
      match value.containsE "ad-group" with
      | .error e => .error e
      | .ok true =>
        match value.lookupE "ad-group" with
        | .error e => .error e
        | .ok ag => .ok (e0 + (if ag.isStr then 0 else 1), 0)
      | .ok false =>
        match value.containsE "filename" with
        | .error e => .error e
        | .ok true =>
          match value.lookupE "filename" with
          | .error e => .error e
          | .ok fn =>
            match _check_group_file env fn with
            | .error e => .error e
            | .ok (e1, w1) => .ok (e0 + e1, w1)
        | .ok false => .ok (e0 + 1, 0)
  | .ok false =>
    -- Regular groups (not templates)
    match value.containsE "ad-group" with
    | .error e => .error e
    | .ok true =>
      match value.lookupE "ad-group" with
      | .error e => .error e
      | .ok ag => .ok ((if ag.isStr then 0 else 1), 0)
    | .ok false =>
      match value.containsE "filename" with
      | .error e => .error e
      | .ok true =>
        match value.lookupE "filename" with
        | .error e => .error e
        | .ok fn => _check_group_file env fn
      | .ok false =>
        match value.containsE "user-list" with
        | .error e => .error e
        | .ok true =>
          match value.lookupE "user-list" with
          | .error e => .error e
          | .ok ul => .ok ((if ul.isList then 0 else 1), 0)
        | .ok false => .ok (1, 0)

/-- The `for` loop of `_verify_groups_syntax`, folded over the dict items
in order, with exceptions propagating as in Python. -/
def groupsGo (env : Env) : List (String × Value) → Except Err (Nat × Nat)
  | [] => .ok (0, 0)
  | (_, value) :: rest =>
    match groupEntry env value with
    | .error e => .error e
    | .ok (e1, w1) =>
      match groupsGo env rest with
      | .error e => .error e
      | .ok (e2, w2) => .ok (e1 + e2, w1 + w2)

/-- `_verify_groups_syntax(groups)` from adles/parser.py (lines 100-142). -/
def _verify_groups_stx (env : Env) (groups : Value) : Except Err (Nat × Nat) :=
  match groups.itemsE with
  | .error e => .error e
  | .ok items => groupsGo env items

/-- The body of the services loop of `_verify_services_syntax`
(adles/parser.py lines 171-189): errors contributed by one service. -/
def serviceEntry (value : Value) : Except Err Nat :=
  match value.containsE "network-interfaces" with
  | .error e => .error e
  | .ok cni =>
    match (if cni then
             match value.lookupE "network-interfaces" with
             | .error e => .error e
             | .ok ni => .ok (if ni.isList then 0 else 1)
           else .ok 0 : Except Err Nat) with
    | .error e => .error e
    | .ok e1 =>
      match value.containsE "provisioner" with
      | .error e => .error e
      | .ok cp =>
        match (if cp then
                 match value.lookupE "provisioner" with
                 | .error e => .error e
                 | .ok pv => _checker ["name", "file"] pv
               else .ok 0 : Except Err Nat) with
        | .error e => .error e
        | .ok e2 =>
          match value.containsE "note" with
          | .error e => .error e
          | .ok cn =>
            match (if cn then
                     match value.lookupE "note" with
                     | .error e => .error e
                     | .ok nv => .ok (if nv.isStr then 0 else 1)
                   else .ok 0 : Except Err Nat) with
            | .error e => .error e
            | .ok e3 =>
              match value.containsE "template" with
              | .error e => .error e
              | .ok true => .ok (e1 + e2 + e3)
              | .ok false =>
                match value.containsE "image" with
                | .error e => .error e
                | .ok true => .ok (e1 + e2 + e3)
                | .ok false =>
                  match value.containsE "dockerfile" with
                  | .error e => .error e
                  | .ok true => .ok (e1 + e2 + e3)
                  | .ok false =>
                    match value.containsE "compose-file" with
                    | .error e => .error e
                    | .ok true => .ok (e1 + e2 + e3)
                    | .ok false => .ok (e1 + e2 + e3 + 1)

/-- The `for` loop of `_verify_services_syntax`. -/
def servicesGo : List (String × Value) → Except Err Nat
  | [] => .ok 0
  | (_, value) :: rest =>
    match serviceEntry value with
    | .error e => .error e
    | .ok e1 =>
      match servicesGo rest with
      | .error e => .error e
      | .ok e2 => .ok (e1 + e2)

/-- `_verify_services_syntax(services)` from adles/parser.py
(lines 161-190); the function produces no warnings. -/
def _verify_services_stx (services : Value) : Except Err (Nat × Nat) :=
  match services.itemsE with
  | .error e => .error e
  | .ok items =>
    match servicesGo items with
    | .error e => .error e
    | .ok n => .ok (n, 0)

/-- `_verify_resources_syntax(resources)` from adles/parser.py
(lines 193-204): presence checks for `lab` and `resource` (the warnings
list is empty). -/
def _verify_resources_stx (resources : Value) : Except Err (Nat × Nat) :=
  match _checker [] resources with
  | .error e => .error e
  | .ok w =>
    match _checker ["lab", "resource"] resources with
    | .error e => .error e
    | .ok e1 => .ok (e1, w)

/-- The subnet block of `_verify_network` (adles/parser.py lines
241-257): (errors, warnings) contributed by the `subnet` key of one
network definition. -/
def subnetBlock (env : Env) (value : Value) : Except Err (Nat × Nat) :=
  match value.containsE "subnet" with
  | .error e => .error e
  | .ok false => .ok (0, 1)
  | .ok true =>
    match value.lookupE "subnet" with
    | .error e => .error e
    | .ok sv =>
      match env.ipnet sv with
      | none => .ok (1, 0)    -- AddrFormatError is caught: invalid format
      | some subnet =>
        if subnet.is_reserved || subnet.is_multicast || subnet.is_loopback then
          .ok (1, 0)
        else if !subnet.is_private then
          .ok (0, 1)
        else
          .ok (0, 0)

/-- The VLAN block of `_verify_network` (adles/parser.py lines 259-266):
errors contributed by the `vlan` key of one network definition under
network class `name`. -/
def vlanBlock (name : String) (value : Value) : Except Err Nat :=
  match value.containsE "vlan" with
  | .error e => .error e
  | .ok false => .ok 0
  | .ok true =>
    -- `name == "unique-networks" and int(value["vlan"]) >= 2000`
    -- (the int() coercion is only evaluated when the class matches)
    if name = "unique-networks" then
      match value.lookupE "vlan" with
      | .error e => .error e
      | .ok vv =>
        match vv.intE with
        | .error e => .error e
        | .ok n => .ok (if 2000 ≤ n then 1 else 0)
    else if name = "generic-networks" then
      .ok 1
    else
      .ok 0

/-- The increment block of `_verify_network` (adles/parser.py lines
268-275): errors contributed by the `increment` key. -/
def incrementBlock (name : String) (value : Value) : Except Err Nat :=
  match value.containsE "increment" with
  | .error e => .error e
  | .ok false => .ok 0
  | .ok true =>
    if name = "unique-networks" then
      .ok 1
    else
      match value.lookupE "increment" with
      | .error e => .error e
      | .ok iv => .ok (if iv.isBool then 0 else 1)

/-- The body of the `for key, value in network.items()` loop of
`_verify_network`: subnet, VLAN and increment blocks in source order. -/
def networkEntry (env : Env) (name : String) (value : Value) : Except Err (Nat × Nat) :=
  match subnetBlock env value with
  | .error e => .error e
  | .ok (se, sw) =>
    match vlanBlock name value with
    | .error e => .error e
    | .ok ve =>
      match incrementBlock name value with
      | .error e => .error e
      | .ok ie => .ok (se + ve + ie, sw)

/-- The `for` loop of `_verify_network` over one network class. -/
def networkGo (env : Env) (name : String) : List (String × Value) → Except Err (Nat × Nat)
  | [] => .ok (0, 0)
  | (_, value) :: rest =>
    match networkEntry env name value with
    | .error e => .error e
    | .ok (e1, w1) =>
      match networkGo env name rest with
      | .error e => .error e
      | .ok (e2, w2) => .ok (e1 + e2, w1 + w2)

/-- `_verify_network(name, network)` from adles/parser.py (lines 229-276). -/
def _verify_network (env : Env) (name : String) (network : Value) : Except Err (Nat × Nat) :=
  match network.itemsE with
  | .error e => .error e
  | .ok items => networkGo env name items

/-- The `for name, network in networks.items()` loop of
`_verify_networks_syntax`. -/
def networksGo (env : Env) : List (String × Value) → Except Err (Nat × Nat)
  | [] => .ok (0, 0)
  | (name, network) :: rest =>
    match _verify_network env name network with
    | .error e => .error e
    | .ok (e1, w1) =>
      match networksGo env rest with
      | .error e => .error e
      | .ok (e2, w2) => .ok (e1 + e2, w1 + w2)

/-- `_verify_networks_syntax(networks)` from adles/parser.py (lines
207-226): requires one of the two recognized network classes, then
verifies every entry of every class present. -/
def _verify_networks_stx (env : Env) (networks : Value) : Except Err (Nat × Nat) :=
  -- `any(net in networks for net in net_types)`, net_types =
  -- ["unique-networks", "generic-networks"]; the generator raises on the
  -- first membership test if `networks` does not support `in`.
  match networks.containsE "unique-networks" with
  | .error e => .error e
  | .ok has_u =>
    match (if has_u then .ok true else networks.containsE "generic-networks" :
           Except Err Bool) with
    | .error e => .error e
    | .ok has_any =>
      if !has_any then .ok (1, 0)
      else
        match networks.itemsE with
        | .error e => .error e
        | .ok items => networksGo env items

/-- `_verify_scoring_syntax(service_name, scoring)` from adles/parser.py
(lines 340-352). -/
def _verify_scoring_stx (scoring : Value) : Except Err (Nat × Nat) :=
  match _checker ["ports", "protocols"] scoring with
  | .error e => .error e
  | .ok w =>
    match _checker ["criteria"] scoring with
    | .error e => .error e
    | .ok e1 => .ok (e1, w)

/-- The reserved structural keys of a folders mapping, skipped by
`_verify_folders_syntax` (adles/parser.py line 289). -/
def folderKeywords : List String := ["group", "master-group", "instances", "description", "enabled"]

/-- The body of the inner `for skey, svalue in value["services"].items()`
loop of `_verify_folders_syntax` (adles/parser.py lines 316-327): errors
and warnings contributed by one service reference of a base folder. -/
def folderServiceEntry (svalue : Value) : Except Err (Nat × Nat) :=
  match svalue.containsE "service" with
  | .error e => .error e
  | .ok cs =>
    let e1 : Nat := if cs then 0 else 1
    match svalue.containsE "networks" with
    | .error e => .error e
    | .ok cn =>
      match (if cn then
               match svalue.lookupE "networks" with
               | .error e => .error e
               | .ok nets => .ok (if nets.isList then 0 else 1)
             else .ok 0 : Except Err Nat) with
      | .error e => .error e
      | .ok e2 =>
        match svalue.containsE "scoring" with
        | .error e => .error e
        | .ok csc =>
          if csc then
            match svalue.lookupE "scoring" with
            | .error e => .error e
            | .ok sc =>
              match _verify_scoring_stx sc with
              | .error e => .error e
              | .ok (e3, w3) => .ok (e1 + e2 + e3, w3)
          else .ok (e1 + e2, 0)

/-- The inner services loop of `_verify_folders_syntax` for base folders. -/
def folderServicesGo : List (String × Value) → Except Err (Nat × Nat)
  | [] => .ok (0, 0)
  | (_, svalue) :: rest =>
    match folderServiceEntry svalue with
    | .error e => .error e
    | .ok (e1, w1) =>
      match folderServicesGo rest with
      | .error e => .error e
      | .ok (e2, w2) => .ok (e1 + e2, w1 + w2)

/-- The `instances` shape check of `_verify_folders_syntax`
(adles/parser.py lines 298-309), for a folder value already known to be
a dict. -/
def folderInstancesCheck (value : Value) : Except Err Nat :=
  match value.containsE "instances" with
  | .error e => .error e
  | .ok false => .ok 0
  | .ok true =>
    match value.lookupE "instances" with
    | .error e => .error e
    | .ok inst =>
      if inst.isInt then .ok 0
      else
        match inst.containsE "number" with
        | .error e => .error e
        | .ok true =>
          match inst.lookupE "number" with
          | .error e => .error e
          | .ok nv => .ok (if nv.isInt then 0 else 1)
        | .ok false =>
          match inst.containsE "size-of" with
          | .error e => .error e
          | .ok true => .ok 0
          | .ok false => .ok 1

/-- Componentwise addition of two (errors, warnings) results, the first
raised exception propagating, in evaluation order. -/
def addE (a b : Except Err (Nat × Nat)) : Except Err (Nat × Nat) :=
  match a with
  | .error e => .error e
  | .ok (e1, w1) =>
    match b with
    | .error e => .error e
    | .ok (e2, w2) => .ok (e1 + e2, w1 + w2)

mutual

/-- The body of the `for key, value in folders.items()` loop of
`_verify_folders_syntax` (adles/parser.py lines 291-336) for one entry.
A reserved key is skipped (`continue`); a non-dict value is one
"Invalid configuration" error; otherwise the `instances` shape is
checked and the folder is classified as a base folder (key `services`
present, which must also name a `group` and whose service references
are each checked) or a parent folder, the latter recursed into.  (The
`isinstance(value, dict)` re-test of the parent branch is always true
there and is dropped.) -/
def folderEntry (key : String) (value : Value) : Except Err (Nat × Nat) :=
  if key ∈ folderKeywords then .ok (0, 0)
  else
    match value with
    | .map m =>
      match folderInstancesCheck (.map m) with
      | .error e => .error e
      | .ok ei =>
        match (Value.map m).containsE "services" with
        | .error e => .error e
        | .ok true =>
          match (Value.map m).containsE "group" with
          | .error e => .error e
          | .ok hasGroup =>
            match (Value.map m).lookupE "services" with
            | .error e => .error e
            | .ok svs =>
              match svs.itemsE with
              | .error e => .error e
              | .ok sitems =>
                match folderServicesGo sitems with
                | .error e => .error e
                | .ok (es, ws) => .ok (ei + ((if hasGroup then 0 else 1) + es), ws)
        | .ok false =>
          match foldersGo m with
          | .error e => .error e
          | .ok (eb, wb) => .ok (ei + eb, wb)
    | _ => .ok (1, 0)

/-- The `for key, value in folders.items()` loop of
`_verify_folders_syntax`: the per-entry contributions accumulated in
iteration order, the first raised exception aborting the loop. -/
def foldersGo : List (String × Value) → Except Err (Nat × Nat)
  | [] => .ok (0, 0)
  | (key, value) :: rest => addE (folderEntry key value) (foldersGo rest)

end

/-- `_verify_folders_syntax(folders)` from adles/parser.py (lines 280-337). -/
def _verify_folders_stx (folders : Value) : Except Err (Nat × Nat) :=
  match folders.itemsE with
  | .error e => .error e
  | .ok items => foldersGo items

/-- The `for platform, config in infra.items()` loop of
`verify_infra_syntax` (adles/parser.py lines 367-396).  The `warnings`
and `errors` name lists are loop-carried state in the source: the
`amazon-aws` / `digital-ocean` / `hyper-v` branches do not reassign them,
so those platforms are checked against whatever lists the previous
iteration left behind (initially empty); an unknown platform logs and
`continue`s before the trailing `_checker` calls, contributing nothing. -/
def infraGo (env : Env) (wl el : List String) : List (String × Value) → Except Err (Nat × Nat)
  | [] => .ok (0, 0)
  | (platform, config) :: rest =>
    if platform = "vmware-vsphere" then
      let wl2 := ["port", "login-file", "datacenter", "datastore", "server-root", "vswitch"]
      let el2 := ["hostname", "template-folder"]
      -- `"login-file" in config and utils.read_json(config["login-file"]) is None`
      match config.containsE "login-file" with
      | .error e => .error e
      | .ok clf =>
        match (if clf then
                 match config.lookupE "login-file" with
                 | .error e => .error e
                 | .ok lf => .ok (if (env.readJson lf).isNull then 1 else 0)
               else .ok 0 : Except Err Nat) with
        | .error e => .error e
        | .ok e1 =>
          match config.containsE "host-list" with
          | .error e => .error e
          | .ok chl =>
            match (if chl then
                     match config.lookupE "host-list" with
                     | .error e => .error e
                     | .ok hl => .ok (if hl.isList then 0 else 1)
                   else .ok 0 : Except Err Nat) with
            | .error e => .error e
            | .ok e2 =>
              match config.containsE "thresholds" with
              | .error e => .error e
              | .ok cth =>
                match (if cth then
                         match config.lookupE "thresholds" with
                         | .error e => .error e
                         | .ok th => _checker ["folder", "service"] th
                       else .ok 0 : Except Err Nat) with
                | .error e => .error e
                | .ok e3 =>
                  match _checker wl2 config with
                  | .error e => .error e
                  | .ok w4 =>
                    match _checker el2 config with
                    | .error e => .error e
                    | .ok e4 =>
                      addE (.ok (e1 + e2 + e3 + e4, w4)) (infraGo env wl2 el2 rest)
    else if platform = "docker" then
      let wl2 := ["url"]
      let el2 : List String := []
      match config.containsE "registry" with
      | .error e => .error e
      | .ok cr =>
        match (if cr then
                 match config.lookupE "registry" with
                 | .error e => .error e
                 | .ok reg => _checker ["url", "login-file"] reg
               else .ok 0 : Except Err Nat) with
        | .error e => .error e
        | .ok e1 =>
          match _checker wl2 config with
          | .error e => .error e
          | .ok w2 =>
            match _checker el2 config with
            | .error e => .error e
            | .ok e2 =>
              addE (.ok (e1 + e2, w2)) (infraGo env wl2 el2 rest)
    else if platform = "amazon-aws" ∨ platform = "digital-ocean" ∨ platform = "hyper-v" then
      -- `pass`: falls through to the trailing checkers with the
      -- loop-carried name lists
      match _checker wl config with
      | .error e => .error e
      | .ok w1 =>
        match _checker el config with
        | .error e => .error e
        | .ok e1 =>
          addE (.ok (e1, w1)) (infraGo env wl el rest)
    else
      -- unknown platform: log and `continue` (no count)
      infraGo env wl el rest

/-- `verify_infra_syntax(infra)` from adles/parser.py (lines 355-397). -/
def verify_infra_stx (env : Env) (infra : Value) : Except Err (Nat × Nat) :=
  match infra.itemsE with
  | .error e => .error e
  | .ok items => infraGo env [] [] items

/-- `_verify_exercise_metadata_syntax(metadata)` from adles/parser.py
(lines 76-97): presence checks, then existence and recursive validation
of the `infra-file`. -/
def _verify_exercise_metadata_stx (env : Env) (metadata : Value) : Except Err (Nat × Nat) :=
  match _checker ["description", "version", "folder-name"] metadata with
  | .error e => .error e
  | .ok w1 =>
    match _checker ["name", "prefix", "infra-file"] metadata with
    | .error e => .error e
    | .ok e1 =>
      match metadata.containsE "infra-file" with
      | .error e => .error e
      | .ok false => .ok (e1, w1)
      | .ok true =>
        match metadata.lookupE "infra-file" with
        | .error e => .error e
        | .ok infra_file =>
          if !env.fileExists infra_file then
            .ok (e1 + 1, w1)
          else
            addE (.ok (e1, w1)) (verify_infra_stx env (env.parseFile infra_file))

/-- The required top-level sections of an exercise specification
(adles/parser.py line 415). -/
def requiredSections : List String := ["metadata", "groups", "services", "networks", "folders"]

/-- The optional top-level sections (adles/parser.py line 416). -/
def optionalSections : List String := ["resources"]

/-- One iteration of the dispatch loop of `verify_exercise_syntax`
(adles/parser.py lines 418-431) for dispatch key `key` with section
checker `f`.  Note the loop runs over the keys of the `funcs` dispatch
dict, not over the document: the "Unknown definition found" warning
branch (kept below) is reachable only for a dispatch key that is neither
required nor optional, and every dispatch key is one of the two. -/
def sectionStep (spec : Value) (key : String) (f : Value → Except Err (Nat × Nat)) :
    Except Err (Nat × Nat) :=
  match spec.containsE key with
  | .error e => .error e
  | .ok false =>
    if key ∈ requiredSections then .ok (1, 0)
    else if key ∈ optionalSections then .ok (0, 0)
    else .ok (0, 1)
  | .ok true =>
    match spec.lookupE key with
    | .error e => .error e
    | .ok v => f v

/-- `verify_exercise_syntax(spec)` from adles/parser.py (lines 400-432):
the dispatch loop over the `funcs` dict in its insertion order. -/
def verify_exercise_stx (env : Env) (spec : Value) : Except Err (Nat × Nat) :=
  addE (sectionStep spec "metadata" (_verify_exercise_metadata_stx env))
    (addE (sectionStep spec "groups" (_verify_groups_stx env))
      (addE (sectionStep spec "services" _verify_services_stx)
        (addE (sectionStep spec "resources" _verify_resources_stx)
          (addE (sectionStep spec "networks" (_verify_networks_stx env))
            (sectionStep spec "folders" _verify_folders_stx)))))

/-- `verify_package_syntax(package)` from adles/parser.py (lines 435-464). -/
def verify_package_stx (package : Value) : Except Err (Nat × Nat) :=
  match package.containsE "metadata" with
  | .error e => .error e
  | .ok cm =>
    match (if cm then
             match package.lookupE "metadata" with
             | .error e => .error e
             | .ok md =>
               match _checker ["name", "description", "version"] md with
               | .error e => .error e
               | .ok w1 =>
                 match _checker ["timestamp", "tag"] md with
                 | .error e => .error e
                 | .ok e1 => .ok (e1, w1)
           else .ok (1, 0) : Except Err (Nat × Nat)) with
    | .error e => .error e
    | .ok (e1, w1) =>
      match package.containsE "contents" with
      | .error e => .error e
      | .ok cc =>
        match (if cc then
                 match package.lookupE "contents" with
                 | .error e => .error e
                 | .ok ct =>
                   match _checker ["infrastructure", "scoring", "results", "templates", "materials"] ct with
                   | .error e => .error e
                   | .ok w2 =>
                     match _checker ["environment"] ct with
                     | .error e => .error e
                     | .ok e2 => .ok (e2, w2)
               else .ok (1, 0) : Except Err (Nat × Nat)) with
        | .error e => .error e
        | .ok (e2, w2) => .ok (e1 + e2, w1 + w2)

/-- The acceptance decision at the end of `check_syntax` (adles/parser.py
lines 496-504): the specification is returned whenever the error count
is zero (warnings are merely reported), and None otherwise. -/
def checkResult (spec : Value) (r : Except Err (Nat × Nat)) : Except Err (Option Value) :=
  match r with
  | .error e => .error e
  | .ok (errors, warnings) =>
    if errors = 0 ∧ warnings = 0 then .ok (some spec)
    else if errors = 0 then .ok (some spec)
    else .ok none

/-- `check_syntax(specfile_path, spec_type)` from adles/parser.py (lines
467-504): None when the file is missing or unparseable (or the spec type
is unknown), otherwise the parsed spec gated by the verifier outcome. -/
def check_stx (env : Env) (specfile_path : String) (spec_type : String) :
    Except Err (Option Value) :=
  if !env.pathExists specfile_path then .ok none
  else
    let spec := env.parsePath specfile_path
    if spec.isNull then .ok none
    else if spec_type = "exercise" then checkResult spec (verify_exercise_stx env spec)
    else if spec_type = "package" then checkResult spec (verify_package_stx spec)
    else if spec_type = "infra" then checkResult spec (verify_infra_stx env spec)
    else .ok none

/-- Python `s.lower()` (ASCII range, which covers the inventory names
the callers compare), written over the character list so that concrete
instances evaluate. -/
def pyLower (s : String) : String := String.mk (s.data.map Char.toLower)

/-- A vSphere inventory item as seen through `folder.childEntity`:
a folder (with its children), a VM, or some other managed entity
(modelled without a `name` attribute, for the `hasattr(item, 'name')`
guard in `find_in_folder`). -/
inductive Entity where
  | folder (name : String) (children : List Entity)
  | vm (name : String)
  | unknownItem
deriving Repr

/-- `is_folder(item)` (adles/vsphere/vsphere_utils.py, not under src/;
modelled from the spec: the platform type test `isinstance(item,
vim.Folder)`). -/
def is_folder : Entity → Bool
  | .folder _ _ => true
  | _ => false

/-- `hasattr(item, 'name')`. -/
def entityHasName : Entity → Bool
  | .unknownItem => false
  | _ => true

/-- The `name` attribute of a named entity. -/
def entityName : Entity → String
  | .folder n _ => n
  | .vm n => n
  | .unknownItem => ""

/-- A `vimtype` argument: the vim managed-object classes the callers
filter by. -/
inductive VimType where
  | folderType
  | vmType
deriving Repr, DecidableEq

/-- `isinstance(item, vimtype)`. -/
def vimMatches : VimType → Entity → Bool
  | .folderType, .folder _ _ => true
  | .folderType, _ => false
  | .vmType, .vm _ => true
  | .vmType, _ => false

/-- The `for item in folder.childEntity` loop of `find_in_folder`
(adles/vsphere/folder_utils.py lines 63-71), with the query name already
lowercased.  When a child's name matches but its type does not, the loop
`continue`s; when the child is a sub-folder and `recursive` is set, the
source calls `find_in_folder` on it but discards the result (the `let`
below keeps that dead call), so only direct children can ever be
returned. -/
def findGo (n : String) (recursive : Bool) (vimtype : Option VimType) :
    List Entity → Option Entity
  | [] => none
  | item :: rest =>
    if entityHasName item ∧ pyLower (entityName item) = n then
      match vimtype with
      | some t => if !vimMatches t item then findGo n recursive vimtype rest else some item
      | none => some item
    else
      match item with
      | .folder _ children =>
        if recursive then
          -- the source recurses here and ignores the returned value
          let _dead := findGo (pyLower n) recursive vimtype children
          findGo n recursive vimtype rest
        else findGo n recursive vimtype rest
      | _ => findGo n recursive vimtype rest

/-- `find_in_folder(folder, name, recursive, vimtype)` from
adles/vsphere/folder_utils.py (lines 53-71).  The `@check(vim.Folder)`
decorator (adles/utils.py, not under src/; modelled from the spec) bars
non-folder arguments. -/
def find_in_folder (folder : Entity) (name : String) (recursive : Bool)
    (vimtype : Option VimType) : Option Entity :=
  match folder with
  | .folder _ children => findGo (pyLower name) recursive vimtype children
  | _ => none

/-- The log channel used by one `create_folder` call. -/
inductive LogChannel where
  | warnLog    -- "Folder already exists" (the collision path)
  | debugLog   -- "Creating folder" (the fresh-creation path)
  | checkFail  -- the @check decorator rejected a non-folder argument
deriving Repr, DecidableEq

/-- `create_folder(folder, folder_name)` from
adles/vsphere/folder_utils.py (lines 163-186), returning (result handle,
folder afterwards, log channel).  A name collision (as decided by
`find_in_folder`) returns the existing entity and leaves the folder
untouched; otherwise `folder.CreateFolder(folder_name)` creates a new
empty child folder, modelled as always succeeding: §5 of the design is
single-threaded, so the `DuplicateName` fault (a concurrent external
rename) cannot occur after `find_in_folder` found no match, and the
`InvalidName` fault is outside the model. -/
def create_folder (folder : Entity) (folder_name : String) :
    Option Entity × Entity × LogChannel :=
  match folder with
  | .folder fn children =>
    -- `find_in_folder(folder, folder_name)`: default arguments
    -- recursive=False, vimtype=None
    match find_in_folder folder folder_name false none with
    | some existing => (some existing, folder, .warnLog)
    | none =>
      let newf := Entity.folder folder_name []
      (some newf, .folder fn (children ++ [newf]), .debugLog)
  | _ => (none, folder, .checkFail)

/-- What one generic `Interface` method call amounts to: the log line it
emits and the platform-interface method it dispatches to with its
`network_cleanup` argument (automation/interface.py lines 64-78). -/
structure InterfaceCall where
  logMsg : String
  dispatchedMethod : String
  networkCleanupArg : Bool
deriving Repr, DecidableEq

namespace Interface

/-- `Interface.cleanup_masters(network_cleanup)` from
automation/interface.py (lines 64-70): logs, then calls
`self.interface.cleanup_masters(network_cleanup=network_cleanup)`. -/
def cleanup_masters (metadataName : String) (network_cleanup : Bool) : InterfaceCall :=
  { logMsg := "Cleaning up Master instances for " ++ metadataName
    dispatchedMethod := "cleanup_masters"
    networkCleanupArg := network_cleanup }

/-- `Interface.cleanup_environment(network_cleanup)` from
automation/interface.py (lines 72-78): logs, then calls
`self.interface.cleanup_masters(network_cleanup=network_cleanup)` —
the same underlying platform operation as `cleanup_masters`. -/
def cleanup_environment (metadataName : String) (network_cleanup : Bool) : InterfaceCall :=
  { logMsg := "Cleaning up environment for " ++ metadataName
    dispatchedMethod := "cleanup_masters"
    networkCleanupArg := network_cleanup }

end Interface

/-- `VsphereInterface.master_prefix` (automation/vsphere_interface.py
line 27). -/
def master_pfx : String := "(MASTER) "

/-- The vSphere collaborator of `create_masters`, modelled from the
spec (automation/vsphere/*, not under src/): `clone_vm` dispatches the
clone task and `self.server.get_vm(vm_name)` afterwards either finds the
clone — returning a handle whose NIC count `len(list(new_vm.network))`
is all `create_masters` reads from it — or does not (`None`), the
clone-failure case. -/
structure Platform where
  getVm : String → Option Nat

/-- The `for service_name, service_config in self.services.items()` loop
of `VsphereInterface.create_masters` (automation/vsphere_interface.py
lines 72-103), returning the names of the services whose iteration ran
to completion together with the number of clone-failure errors logged.
A service without a `template` key is passed over; a clone that does not
appear is logged as an error and `continue`d past; for a clone that does
appear the source evaluates `len(service_config["networks"])` (KeyError
when the service declares no `networks` key) and, when it equals the
clone's NIC count, calls `zip(service_config["networks"],
len(service_config["networks"]))` whose second argument is an `int`, so
the `zip` call raises TypeError; on a count mismatch it falls through to
the note/snapshot calls (modelled as effect-free collaborator calls). -/
def create_masters_services (p : Platform) :
    List (String × Value) → Except Err (List String × Nat)
  | [] => .ok ([], 0)
  | (service_name, service_config) :: rest =>
    match service_config.containsE "template" with
    | .error e => .error e
    | .ok false =>
      match create_masters_services p rest with
      | .error e => .error e
      | .ok (done, errs) => .ok (service_name :: done, errs)
    | .ok true =>
      match service_config.lookupE "template" with
      | .error e => .error e
      | .ok _template =>
        -- clone_vm(vm=template, folder=master_folder, name=vm_name, ...)
        match p.getVm (master_pfx ++ service_name) with
        | none =>
          -- "Did not successfully clone VM %s": log error, continue
          match create_masters_services p rest with
          | .error e => .error e
          | .ok (done, errs) => .ok (service_name :: done, errs + 1)
        | some nics =>
          match service_config.lookupE "networks" with
          | .error e => .error e
          | .ok nets =>
            match nets.lenE with
            | .error e => .error e
            | .ok nlen =>
              if nlen = nics then
                -- zip(service_config["networks"], len(...)): TypeError
                .error .typeError
              else
                match service_config.containsE "note" with
                | .error e => .error e
                | .ok cnote =>
                  match (if cnote then service_config.lookupE "note"
                         else .ok .null : Except Err Value) with
                  | .error e => .error e
                  | .ok _note =>
                    -- set_note / create_snapshot: collaborator calls
                    match create_masters_services p rest with
                    | .error e => .error e
                    | .ok (done, errs) => .ok (service_name :: done, errs)

/-! ## Concrete instantiations used by counterexamples and witnesses -/

/-- An environment whose oracles all answer negatively: every JSON read
and YAML parse fails, no file exists except the spec path, no subnet
string parses. -/
def envC : Env :=
  { readJson := fun _ => .null
    fileExists := fun _ => false
    parseFile := fun _ => .null
    pathExists := fun _ => true
    parsePath := fun _ => .null
    ipnet := fun _ => none }

/-- An environment whose spec path parses to the empty document. -/
def envC7 : Env :=
  { readJson := fun _ => .null
    fileExists := fun _ => false
    parseFile := fun _ => .null
    pathExists := fun _ => true
    parsePath := fun _ => .map []
    ipnet := fun _ => none }

/-- An environment with a netaddr oracle fixed on a few concrete
subnets: `127.0.0.0/8` is loopback, `224.0.0.0/4` is multicast,
`8.8.8.0/24` is routable but not private, `10.0.0.0/8` is private, and
nothing else parses. -/
def envIp : Env :=
  { readJson := fun _ => .null
    fileExists := fun _ => false
    parseFile := fun _ => .null
    pathExists := fun _ => true
    parsePath := fun _ => .null
    ipnet := fun v =>
      match v with
      | .str "127.0.0.0/8" => some ⟨false, false, true, false⟩
      | .str "224.0.0.0/4" => some ⟨false, true, false, false⟩
      | .str "8.8.8.0/24" => some ⟨false, false, false, false⟩
      | .str "10.0.0.0/8" => some ⟨false, false, false, true⟩
      | _ => none }

/-- A platform on which only the clone of service `b` appears after
creation, with zero network interfaces. -/
def pBug : Platform :=
  { getVm := fun s => if s = "(MASTER) b" then some 0 else none }

/-! ## C1 — group membership mechanisms -/

/-- C1 counterexample: a (non-template) group carrying all three
membership mechanisms at once — and whose `user-list` value is a string,
not a sequence — passes `_verify_groups_syntax` with zero errors,
because the `ad-group`/`filename`/`user-list` checks form an
`if`/`elif` chain that stops at the first present mechanism; the claim
asserts such a group yields an error. -/
theorem groups_multi_mechanism_counterexample :
    _verify_groups_stx envC
      (.map [("g", .map [("ad-group", .str "Group A"),
                         ("filename", .str "users.json"),
                         ("user-list", .str "alice")])]) = .ok (0, 0) := rfl

/-- C1 (amended): for every group definition, membership is checked by
the first present mechanism in the order `ad-group`, `filename`,
`user-list` (the last only reachable for non-template groups); a group
with none of the applicable mechanisms yields exactly one error;
mechanisms after the first present one are ignored, not flagged; and a
non-template group whose first present mechanism is `user-list` with a
non-sequence value yields one error. -/
theorem groups_membership_amended :
    (∀ env m, m.lookup "instances" = none → m.lookup "ad-group" = none →
       m.lookup "filename" = none → m.lookup "user-list" = none →
       groupEntry env (.map m) = .ok (1, 0))
    ∧ (∀ env m (n : Int), m.lookup "instances" = some (.int n) →
       m.lookup "ad-group" = none → m.lookup "filename" = none →
       groupEntry env (.map m) = .ok (1, 0))
    ∧ (∀ env m s, m.lookup "instances" = none → m.lookup "ad-group" = some (.str s) →
       groupEntry env (.map m) = .ok (0, 0))
    ∧ (∀ env m v, m.lookup "instances" = none → m.lookup "ad-group" = none →
       m.lookup "filename" = none → m.lookup "user-list" = some v → v.isList = false →
       groupEntry env (.map m) = .ok (1, 0)) := by
  refine ⟨?_, ?_, ?_, ?_⟩
  · intro env m h1 h2 h3 h4
    simp [groupEntry, Value.containsE, Value.lookupE, h1, h2, h3, h4]
  · intro env m n h1 h2 h3
    simp [groupEntry, Value.containsE, Value.lookupE, Value.isInt, h1, h2, h3]
  · intro env m s h1 h2
    simp [groupEntry, Value.containsE, Value.lookupE, Value.isStr, h1, h2]
  · intro env m v h1 h2 h3 h4 h5
    simp [groupEntry, Value.containsE, Value.lookupE, h1, h2, h3, h4, h5]

/-- Witness for the amended C1 statement at concrete groups. -/
theorem groups_membership_amended_witness :
    groupEntry envC (.map [("note", .str "x")]) = .ok (1, 0)
    ∧ groupEntry envC (.map [("ad-group", .str "A"), ("user-list", .int 3)]) = .ok (0, 0)
    ∧ groupEntry envC (.map [("user-list", .str "alice")]) = .ok (1, 0) :=
  ⟨groups_membership_amended.1 envC [("note", .str "x")] rfl rfl rfl rfl,
   groups_membership_amended.2.2.1 envC [("ad-group", .str "A"), ("user-list", .int 3)] "A" rfl rfl,
   groups_membership_amended.2.2.2 envC [("user-list", .str "alice")] (.str "alice") rfl rfl rfl rfl rfl⟩

/-! ## C2 — VLAN rules per network class -/

/-- C2 counterexample: a `vlan` key under `base-networks` yields no
error — the VLAN check only fires for the class names
`unique-networks` (value bound) and `generic-networks` (always); the
claim asserts an error under every class other than `unique-networks`.
The one warning comes from the missing `subnet`, the error count is 0. -/
theorem vlan_base_networks_counterexample :
    _verify_networks_stx envC
      (.map [("unique-networks", .map []),
             ("base-networks", .map [("net0", .map [("vlan", .int 100)])])]) = .ok (0, 1) := rfl

/-- C2 (amended): for a network definition carrying a `vlan` key, the
VLAN block of `_verify_network` yields an error exactly when the class
is `unique-networks` and the value is ≥ 2000, or the class is
`generic-networks` (any value); under every other class name —
`base-networks` included — the `vlan` key yields no error. -/
theorem vlan_rules_amended :
    (∀ m (v : Int), m.lookup "vlan" = some (.int v) →
       vlanBlock "unique-networks" (.map m) = .ok (if 2000 ≤ v then 1 else 0))
    ∧ (∀ m val, m.lookup "vlan" = some val →
       vlanBlock "generic-networks" (.map m) = .ok 1)
    ∧ (∀ name m val, name ≠ "unique-networks" → name ≠ "generic-networks" →
       m.lookup "vlan" = some val → vlanBlock name (.map m) = .ok 0) := by
  refine ⟨?_, ?_, ?_⟩
  · intro m v h
    simp [vlanBlock, Value.containsE, Value.lookupE, Value.intE, h]
  · intro m val h
    simp [vlanBlock, Value.containsE, Value.lookupE, h]
  · intro name m val h1 h2 h3
    simp [vlanBlock, Value.containsE, Value.lookupE, h1, h2, h3]

/-- Witness for the amended C2 statement: `vlan: 2500` and `vlan: 100`
under `unique-networks`, `vlan: 100` under `generic-networks` and under
`base-networks`. -/
theorem vlan_rules_amended_witness :
    vlanBlock "unique-networks" (.map [("vlan", .int 2500)]) = .ok 1
    ∧ vlanBlock "unique-networks" (.map [("vlan", .int 100)]) = .ok 0
    ∧ vlanBlock "generic-networks" (.map [("vlan", .int 100)]) = .ok 1
    ∧ vlanBlock "base-networks" (.map [("vlan", .int 100)]) = .ok 0 := by
  refine ⟨?_, ?_, ?_, ?_⟩
  · simpa using vlan_rules_amended.1 [("vlan", .int 2500)] 2500 rfl
  · simpa using vlan_rules_amended.1 [("vlan", .int 100)] 100 rfl
  · exact vlan_rules_amended.2.1 [("vlan", .int 100)] (.int 100) rfl
  · exact vlan_rules_amended.2.2 "base-networks" [("vlan", .int 100)] (.int 100)
      (by decide) (by decide) rfl

/-! ## C3 — subnet classification -/

/-- C3: the subnet block of `_verify_network` behaves as specified: a
missing `subnet` key is one warning and no error; a value netaddr cannot
parse (AddrFormatError) is one error; a parsed subnet that is reserved,
multicast or loopback is one error; a parsed, non-reserved subnet that
is not private is one warning and no error; a private one is neither. -/
theorem subnet_classification :
    (∀ env m, m.lookup "subnet" = none → subnetBlock env (.map m) = .ok (0, 1))
    ∧ (∀ env m sv, m.lookup "subnet" = some sv → env.ipnet sv = none →
       subnetBlock env (.map m) = .ok (1, 0))
    ∧ (∀ env m sv i, m.lookup "subnet" = some sv → env.ipnet sv = some i →
       (i.is_reserved || i.is_multicast || i.is_loopback) = true →
       subnetBlock env (.map m) = .ok (1, 0))
    ∧ (∀ env m sv i, m.lookup "subnet" = some sv → env.ipnet sv = some i →
       (i.is_reserved || i.is_multicast || i.is_loopback) = false → i.is_private = false →
       subnetBlock env (.map m) = .ok (0, 1))
    ∧ (∀ env m sv i, m.lookup "subnet" = some sv → env.ipnet sv = some i →
       (i.is_reserved || i.is_multicast || i.is_loopback) = false → i.is_private = true →
       subnetBlock env (.map m) = .ok (0, 0)) := by
  refine ⟨?_, ?_, ?_, ?_, ?_⟩
  · intro env m h
    simp [subnetBlock, Value.containsE, Value.lookupE, h]
  · intro env m sv h1 h2
    simp [subnetBlock, Value.containsE, Value.lookupE, h1, h2]
  · intro env m sv i h1 h2 h3
    simp [subnetBlock, Value.containsE, Value.lookupE, h1, h2, h3]
  · intro env m sv i h1 h2 h3 h4
    simp [subnetBlock, Value.containsE, Value.lookupE, h1, h2, h3, h4]
  · intro env m sv i h1 h2 h3 h4
    simp [subnetBlock, Value.containsE, Value.lookupE, h1, h2, h3, h4]

/-- Witness for C3 at concrete subnets: no subnet, a malformed subnet,
`127.0.0.0/8` (loopback), `224.0.0.0/4` (multicast), `8.8.8.0/24`
(routable non-private) and `10.0.0.0/8` (private). -/
theorem subnet_classification_witness :
    subnetBlock envIp (.map []) = .ok (0, 1)
    ∧ subnetBlock envIp (.map [("subnet", .str "not-a-subnet")]) = .ok (1, 0)
    ∧ subnetBlock envIp (.map [("subnet", .str "127.0.0.0/8")]) = .ok (1, 0)
    ∧ subnetBlock envIp (.map [("subnet", .str "224.0.0.0/4")]) = .ok (1, 0)
    ∧ subnetBlock envIp (.map [("subnet", .str "8.8.8.0/24")]) = .ok (0, 1)
    ∧ subnetBlock envIp (.map [("subnet", .str "10.0.0.0/8")]) = .ok (0, 0) :=
  ⟨subnet_classification.1 envIp [] rfl,
   subnet_classification.2.1 envIp [("subnet", .str "not-a-subnet")] (.str "not-a-subnet") rfl rfl,
   subnet_classification.2.2.1 envIp [("subnet", .str "127.0.0.0/8")] (.str "127.0.0.0/8")
     ⟨false, false, true, false⟩ rfl rfl rfl,
   subnet_classification.2.2.1 envIp [("subnet", .str "224.0.0.0/4")] (.str "224.0.0.0/4")
     ⟨false, true, false, false⟩ rfl rfl rfl,
   subnet_classification.2.2.2.1 envIp [("subnet", .str "8.8.8.0/24")] (.str "8.8.8.0/24")
     ⟨false, false, false, false⟩ rfl rfl rfl rfl,
   subnet_classification.2.2.2.2 envIp [("subnet", .str "10.0.0.0/8")] (.str "10.0.0.0/8")
     ⟨false, false, false, true⟩ rfl rfl rfl rfl⟩

/-! ## C5 — top-level section dispatch -/

/-- Looking a key up in an association list filtered by a key predicate
the key satisfies gives the same result as in the unfiltered list. -/
theorem lookup_filter_of_pred (p : String → Bool) (k : String) (hp : p k = true) :
    ∀ m : List (String × Value), List.lookup k (m.filter fun kv => p kv.1) = List.lookup k m := by
  intro m
  induction m with
  | nil => rfl
  | cons hd tl ih =>
    obtain ⟨a, b⟩ := hd
    by_cases hak : k = a
    · subst hak
      simp [List.filter_cons, List.lookup_cons, hp]
    · have hbeq : (k == a) = false := by simpa using hak
      cases hpa : p a <;> simp [List.filter_cons, List.lookup_cons, hbeq, hpa, ih]

/-- `verify_exercise_syntax` reads the document only through the six
dispatch keys. -/
theorem verify_exercise_lookup_congr (env : Env) (m m2 : List (String × Value))
    (h : ∀ k, k ∈ requiredSections ∨ k ∈ optionalSections →
      List.lookup k m = List.lookup k m2) :
    verify_exercise_stx env (.map m) = verify_exercise_stx env (.map m2) := by
  have h1 := h "metadata" (by simp [requiredSections])
  have h2 := h "groups" (by simp [requiredSections])
  have h3 := h "services" (by simp [requiredSections])
  have h4 := h "resources" (by simp [optionalSections])
  have h5 := h "networks" (by simp [requiredSections])
  have h6 := h "folders" (by simp [requiredSections])
  simp only [verify_exercise_stx, sectionStep, Value.containsE, Value.lookupE,
    h1, h2, h3, h4, h5, h6]

/-- C5 counterexample: a document whose only top-level key is the
unrecognized `bogus` produces (5, 0) — five errors for the five missing
required sections and zero warnings: the claim that every unrecognized
top-level key increments the warning count is false, because the
dispatch loop iterates over the checker table's keys, not the
document's, so document keys outside the table are never visited. -/
theorem unknown_key_counterexample :
    verify_exercise_stx envC (.map [("bogus", .int 1)]) = .ok (5, 0) := rfl

/-- C5 (amended): each missing required top-level section increments the
error count by one (a document with none of the six recognized keys
yields exactly (5, 0)); a missing optional `resources` section
increments neither count; and top-level keys outside the six recognized
ones are ignored entirely — filtering them out of the document never
changes the result, and in particular they do not increment the warning
count. -/
theorem top_level_sections_amended :
    (∀ env m, verify_exercise_stx env (.map m)
       = verify_exercise_stx env (.map (m.filter fun kv =>
           decide (kv.1 ∈ requiredSections) || decide (kv.1 ∈ optionalSections))))
    ∧ (∀ env m, (∀ k, k ∈ requiredSections ∨ k ∈ optionalSections →
         List.lookup k m = none) →
       verify_exercise_stx env (.map m) = .ok (5, 0)) := by
  constructor
  · intro env m
    apply verify_exercise_lookup_congr
    intro k hk
    have hp : (fun s => decide (s ∈ requiredSections) || decide (s ∈ optionalSections)) k
        = true := by
      rcases hk with hk | hk <;> simp [hk]
    exact (lookup_filter_of_pred
      (fun s => decide (s ∈ requiredSections) || decide (s ∈ optionalSections)) k hp m).symm
  · intro env m h
    have h1 := h "metadata" (by simp [requiredSections])
    have h2 := h "groups" (by simp [requiredSections])
    have h3 := h "services" (by simp [requiredSections])
    have h4 := h "resources" (by simp [optionalSections])
    have h5 := h "networks" (by simp [requiredSections])
    have h6 := h "folders" (by simp [requiredSections])
    simp +decide [verify_exercise_stx, sectionStep, Value.containsE, addE,
      h1, h2, h3, h4, h5, h6]

/-- Witness for the amended C5 statement: a document holding only an
unrecognized key yields five errors and no warnings. -/
theorem top_level_sections_amended_witness :
    verify_exercise_stx envC (.map [("junk", .str "x")]) = .ok (5, 0) := by
  apply top_level_sections_amended.2
  intro k hk
  have hne : k ≠ "junk" := by
    rcases hk with hk | hk <;> fin_cases hk <;> decide
  have hb : (k == "junk") = false := by simpa using hne
  simp [List.lookup_cons, hb]

/-! ## C7 — acceptance condition of check_syntax -/

/-- C7: for a specification file that exists and parses, `check_syntax`
returns the parsed specification exactly when the verifier reports zero
errors (for each of the three specification types), regardless of the
warning count; with a positive error count it returns None. -/
theorem check_syntax_acceptance :
    ∀ (env : Env) (path ty : String) (spec : Value) (e w : Nat),
    env.pathExists path = true →
    env.parsePath path = spec →
    spec.isNull = false →
    ((ty = "exercise" ∧ verify_exercise_stx env spec = .ok (e, w)) ∨
     (ty = "package" ∧ verify_package_stx spec = .ok (e, w)) ∨
     (ty = "infra" ∧ verify_infra_stx env spec = .ok (e, w))) →
    check_stx env path ty = .ok (if e = 0 then some spec else none) := by
  intro env path ty spec e w h1 h2 h3 h4
  rcases h4 with ⟨rfl, hv⟩ | ⟨rfl, hv⟩ | ⟨rfl, hv⟩ <;>
  · simp only [check_stx, h1, h2, h3, Bool.not_true, Bool.false_eq_true, if_false,
      reduceIte, checkResult, hv]
    by_cases he : e = 0
    · by_cases hw : w = 0 <;> simp [he, hw]
    · simp [he]

/-- Witness for C7: an existing path parsing to the empty document (five
errors) is rejected with None. -/
theorem check_syntax_acceptance_witness :
    check_stx envC7 "spec.yaml" "exercise" = .ok none := by
  have h := check_syntax_acceptance envC7 "spec.yaml" "exercise" (.map []) 5 0
    rfl rfl rfl (Or.inl ⟨rfl, rfl⟩)
  simpa using h

/-! ## C6 — reserved keys in the folder tree -/

/-- `addE` is associative. -/
theorem addE_assoc (a b c : Except Err (Nat × Nat)) :
    addE (addE a b) c = addE a (addE b c) := by
  rcases a with e | ⟨e1, w1⟩ <;> rcases b with e | ⟨e2, w2⟩ <;> rcases c with e | ⟨e3, w3⟩ <;>
    simp [addE, Nat.add_assoc]

/-- `.ok (0, 0)` is a left unit for `addE`. -/
theorem addE_zero_left (a : Except Err (Nat × Nat)) : addE (.ok (0, 0)) a = a := by
  rcases a with e | ⟨e1, w1⟩ <;> simp [addE]

/-- The folders loop distributes over list append (errors and warnings
are summed, the first exception wins). -/
theorem foldersGo_append (l1 l2 : List (String × Value)) :
    foldersGo (l1 ++ l2) = addE (foldersGo l1) (foldersGo l2) := by
  induction l1 with
  | nil => simp only [List.nil_append, foldersGo.eq_1, addE_zero_left]
  | cons hd tl ih =>
    obtain ⟨key, value⟩ := hd
    rw [List.cons_append, foldersGo.eq_2, foldersGo.eq_2, ih]
    exact (addE_assoc _ _ _).symm

/-- A reserved-keyword entry contributes nothing to the folders loop. -/
theorem foldersGo_keyword_skip (kw : String) (hkw : kw ∈ folderKeywords) (v : Value)
    (post : List (String × Value)) : foldersGo ((kw, v) :: post) = foldersGo post := by
  rw [foldersGo.eq_2, folderEntry.eq_def, if_pos hkw, addE_zero_left]

/-- C6: `_verify_folders_syntax` skips the reserved keys at every
nesting level: inserting a reserved-keyed entry at any position of any
folders mapping leaves the result unchanged — in particular such keys
are never classified as child folders and never produce the "Invalid
configuration" (non-mapping) error — and a concrete tree whose leaf,
three levels down, consists only of the reserved keys `group` and
`instances` validates with zero errors and zero warnings. -/
theorem folders_reserved_keys_skipped :
    (∀ kw, kw ∈ folderKeywords → ∀ (v : Value) (pre post : List (String × Value)),
       foldersGo (pre ++ (kw, v) :: post) = foldersGo (pre ++ post))
    ∧ _verify_folders_stx
        (.map [("F1", .map [("F2", .map [("F3",
          .map [("group", .str "Students"), ("instances", .int 3)])])])]) = .ok (0, 0) := by
  constructor
  · intro kw hkw v pre post
    rw [foldersGo_append, foldersGo_append, foldersGo_keyword_skip kw hkw]
  · simp +decide [_verify_folders_stx, Value.itemsE, foldersGo, folderEntry,
      folderKeywords, folderInstancesCheck, Value.containsE, Value.lookupE,
      Value.isInt, addE, List.lookup]

/-- Witness for C6: skipping applied at the reserved key `group` bound
to a non-mapping value, which would otherwise be an "Invalid
configuration" error. -/
theorem folders_reserved_keys_skipped_witness :
    foldersGo [("group", .str "Students")] = foldersGo [] :=
  folders_reserved_keys_skipped.1 "group" (by decide) (.str "Students") [] []

/-! ## C4 — partial-failure isolation in create_masters -/

/-- C4: the clone-failure `continue` of `create_masters` does isolate a
service whose clone does not appear — with services `a` and `c` both
failing to clone, both iterations complete and two errors are logged —
but the phase does not survive a service whose clone succeeds with a
declared network list matching the clone's interface count: with
service `b` (networks `[]`, clone appearing with 0 NICs) between them,
`zip(service_config["networks"], len(service_config["networks"]))`
raises TypeError (its second argument is an int), aborting
`create_masters` before service `c` is ever processed, contrary to the
claimed whole-phase partial-failure tolerance. -/
theorem create_masters_zip_abort :
    create_masters_services pBug
      [("a", .map [("template", .str "t1")]),
       ("b", .map [("template", .str "t2"), ("networks", .list [])]),
       ("c", .map [("template", .str "t3")])] = .error .typeError
    ∧ create_masters_services pBug
      [("a", .map [("template", .str "t1")]),
       ("c", .map [("template", .str "t3")])] = .ok (["a", "c"], 2) :=
  ⟨rfl, rfl⟩

/-! ## C10 — find_in_folder returns direct children only -/

/-- The matching condition `find_in_folder` applies to a child: it has a
name, the lowercased names agree, and the vimtype filter (when given)
accepts it. -/
def findPred (n : String) (vimtype : Option VimType) (item : Entity) : Bool :=
  entityHasName item && (pyLower (entityName item) == n)
    && (match vimtype with | some t => vimMatches t item | none => true)

/-- The `find_in_folder` loop returns exactly the first direct child
satisfying `findPred`; the recursive descent never contributes (its
result is discarded by the source). -/
theorem findGo_eq_find (n : String) (r : Bool) (t : Option VimType) :
    ∀ l : List Entity, findGo n r t l = l.find? (findPred n t) := by
  intro l
  induction l with
  | nil => cases t <;> simp [findGo, List.find?]
  | cons item rest ih =>
    cases t with
    | none =>
      cases item with
      | folder fn ch =>
        by_cases h : pyLower fn = n
        · simp [findGo, entityHasName, entityName, h, findPred,
            List.find?_cons_of_pos]
        · rw [List.find?_cons_of_neg _ (by simp [findPred, entityHasName, entityName, h])]
          simp [findGo, entityHasName, entityName, h, ih]
      | vm vn =>
        by_cases h : pyLower vn = n
        · simp [findGo, entityHasName, entityName, h, findPred,
            List.find?_cons_of_pos]
        · rw [List.find?_cons_of_neg _ (by simp [findPred, entityHasName, entityName, h])]
          simp [findGo, entityHasName, entityName, h, ih]
      | unknownItem =>
        rw [List.find?_cons_of_neg _ (by simp [findPred, entityHasName])]
        simp [findGo, entityHasName, ih]
    | some ty =>
      cases item with
      | folder fn ch =>
        by_cases h : pyLower fn = n
        · by_cases hm : vimMatches ty (.folder fn ch) = true
          · simp [findGo, entityHasName, entityName, h, hm, findPred,
              List.find?_cons_of_pos]
          · rw [List.find?_cons_of_neg _ (by simp [findPred, entityHasName, entityName, h, hm])]
            simp [findGo, entityHasName, entityName, h, hm, ih]
        · rw [List.find?_cons_of_neg _ (by simp [findPred, entityHasName, entityName, h])]
          simp [findGo, entityHasName, entityName, h, ih]
      | vm vn =>
        by_cases h : pyLower vn = n
        · by_cases hm : vimMatches ty (.vm vn) = true
          · simp [findGo, entityHasName, entityName, h, hm, findPred,
              List.find?_cons_of_pos]
          · rw [List.find?_cons_of_neg _ (by simp [findPred, entityHasName, entityName, h, hm])]
            simp [findGo, entityHasName, entityName, h, hm, ih]
        · rw [List.find?_cons_of_neg _ (by simp [findPred, entityHasName, entityName, h])]
          simp [findGo, entityHasName, entityName, h, ih]
      | unknownItem =>
        rw [List.find?_cons_of_neg _ (by simp [findPred, entityHasName])]
        simp [findGo, entityHasName, ih]

/-- C10: `find_in_folder` returns exactly the first direct child of the
folder whose lowercased name equals the lowercased query (and which the
vimtype filter accepts) — the right-hand side does not depend on the
`recursive` flag, so a match living only in a sub-folder is never
returned, as the two concrete cases illustrate: a VM named `Target` one
level inside a sub-folder is not found even with `recursive=True`, while
a direct child `Target` is found by the query `TARGET`
(case-insensitive comparison). -/
theorem find_in_folder_direct_children :
    (∀ (fn : String) (children : List Entity) (name : String) (recursive : Bool)
       (vimtype : Option VimType),
       find_in_folder (.folder fn children) name recursive vimtype
         = children.find? (findPred (pyLower name) vimtype))
    ∧ find_in_folder (.folder "root" [.folder "Sub" [.vm "Target"]]) "target" true none = none
    ∧ find_in_folder (.folder "root" [.vm "Target"]) "TARGET" false none
        = some (.vm "Target") := by
  refine ⟨?_, ?_, ?_⟩
  · intro fn children name recursive vimtype
    simp only [find_in_folder]
    exact findGo_eq_find (pyLower name) recursive vimtype children
  · simp +decide [find_in_folder, findGo, entityHasName, entityName, pyLower]
  · simp +decide [find_in_folder, findGo, entityHasName, entityName, pyLower]

/-! ## C8 — idempotent folder creation -/

/-- C8: when a child with the requested name already exists (as decided
by the case-insensitive `find_in_folder`), `create_folder` returns the
existing handle, leaves the folder unchanged (no duplicate is created)
and logs a warning, not an error; and re-invoking `create_folder` with
the same arguments on the resulting state always returns the same
handle and the same state. -/
theorem create_folder_idempotent :
    (∀ (folder : Entity) (name : String) (existing : Entity),
       find_in_folder folder name false none = some existing →
       create_folder folder name = (some existing, folder, .warnLog))
    ∧ (∀ (folder : Entity) (name : String),
       (create_folder ((create_folder folder name).2.1) name).1
           = (create_folder folder name).1
       ∧ (create_folder ((create_folder folder name).2.1) name).2.1
           = (create_folder folder name).2.1) := by
  constructor
  · intro folder name existing h
    cases folder with
    | folder fn ch => simp [create_folder, h]
    | vm vn => simp [find_in_folder] at h
    | unknownItem => simp [find_in_folder] at h
  · intro folder name
    cases folder with
    | vm vn => simp [create_folder]
    | unknownItem => simp [create_folder]
    | folder fn ch =>
      cases h : find_in_folder (.folder fn ch) name false none with
      | some ex => simp [create_folder, h]
      | none =>
        have hch : ch.find? (findPred (pyLower name) none) = none := by
          rw [find_in_folder, findGo_eq_find] at h
          exact h
        have hnew : findPred (pyLower name) none (Entity.folder name []) = true := by
          simp [findPred, entityHasName, entityName]
        have hfind2 : find_in_folder (.folder fn (ch ++ [Entity.folder name []])) name
            false none = some (Entity.folder name []) := by
          rw [find_in_folder, findGo_eq_find, List.find?_append, hch]
          simp [List.find?_cons_of_pos _ hnew]
        simp [create_folder, h, hfind2]

/-- Witness for C8: creating `sub` where a child `Sub` already exists
returns the existing child, unchanged state, and a warning. -/
theorem create_folder_idempotent_witness :
    create_folder (.folder "root" [.folder "Sub" []]) "sub"
      = (some (.folder "Sub" []), .folder "root" [.folder "Sub" []], .warnLog) :=
  create_folder_idempotent.1 (.folder "root" [.folder "Sub" []]) "sub" (.folder "Sub" [])
    (by simp +decide [find_in_folder, findGo, entityHasName, entityName, pyLower])

/-! ## C9 — cleanup_environment delegates exactly like cleanup_masters -/

/-- C9: for every specification (metadata name) and every value of the
`network_cleanup` flag, the generic `Interface.cleanup_environment`
dispatches the very same platform-interface method with the same
argument as `Interface.cleanup_masters`; the two differ only in the log
line they emit. -/
theorem cleanup_dispatch_equal :
    ∀ (metadataName : String) (network_cleanup : Bool),
      (Interface.cleanup_environment metadataName network_cleanup).dispatchedMethod
        = (Interface.cleanup_masters metadataName network_cleanup).dispatchedMethod
      ∧ (Interface.cleanup_environment metadataName network_cleanup).networkCleanupArg
        = (Interface.cleanup_masters metadataName network_cleanup).networkCleanupArg
      ∧ (Interface.cleanup_environment metadataName network_cleanup).logMsg
        ≠ (Interface.cleanup_masters metadataName network_cleanup).logMsg := by
  intro nm b
  refine ⟨rfl, rfl, ?_⟩
  intro h
  simp only [Interface.cleanup_environment, Interface.cleanup_masters] at h
  have h2 : ("Cleaning up environment for ").data ++ nm.data
      = ("Cleaning up Master instances for ").data ++ nm.data := by
    simpa [String.data_append] using congrArg String.data h
  exact absurd (List.append_cancel_right h2) (by decide)

/-- Witness for C9 at a concrete exercise name and flag value. -/
theorem cleanup_dispatch_equal_witness :
    (Interface.cleanup_environment "Lab" true).dispatchedMethod
      = (Interface.cleanup_masters "Lab" true).dispatchedMethod
    ∧ (Interface.cleanup_environment "Lab" true).networkCleanupArg
      = (Interface.cleanup_masters "Lab" true).networkCleanupArg
    ∧ (Interface.cleanup_environment "Lab" true).logMsg
      ≠ (Interface.cleanup_masters "Lab" true).logMsg :=
  cleanup_dispatch_equal "Lab" true
